import Mathlib

/-!
Shallow embedding of mlrun runtimes/kubejob.py: the KubejobRuntime build and
run orchestration (is_deployed, with_source_archive, deploy, _build_watch,
_run, _resolve_workdir, func_to_pod).  Backend interactions are modelled as
explicit inputs: the remote builder response is a record, and the builder
status endpoint is a finite list of snapshots consumed one per
get_builder_status call (each call writes the snapshot state into
status.state and returns the log text from the requested character offset
when logs are requested).  Python strings are modelled character-based,
matching len() and slicing semantics.
-/

/-- Character-based drop, matching the Python slice text[n:]. -/
def strDrop (s : String) (n : Nat) : String := String.mk (s.data.drop n)

/-- Character count, matching Python len(text). -/
def strLen (s : String) : Nat := s.data.length

/-- Python str.startswith. -/
def strStarts (s p : String) : Bool := p.data.isPrefixOf s.data

/-- Python str.endswith. -/
def strEnds (s p : String) : Bool := p.data.isSuffixOf s.data

/-- Containment over char lists, used for the Python test sub in s. -/
def listContainsSub (sub : List Char) : List Char → Bool
  | [] => sub.isEmpty
  | c :: rest => sub.isPrefixOf (c :: rest) || listContainsSub sub rest

/-- Python substring containment: sub in s. -/
def strContainsSub (s sub : String) : Bool := listContainsSub sub.data s.data

/-- posix os.path.isabs. -/
def isAbs (p : String) : Bool := strStarts p "/"

/-- posix os.path.join restricted to two arguments, as called in the source. -/
def pathJoin (a b : String) : String :=
  if strStarts b "/" then b
  else if a = "" || strEnds a "/" then a ++ b
  else a ++ "/" ++ b

/-- spec.build of the runtime: the build configuration fields read by
kubejob.py (mlrun ImageBuilder).  Empty string / empty list model Python
None or empty (falsy) values. -/
structure ImageBuilder where
  source : String := ""
  commands : List String := []
  requirements : List String := []
  extra : String := ""
  base_image : String := ""
  load_source_on_run : Bool := false
  with_mlrun : Option Bool := none
deriving DecidableEq, Repr

/-- The runtime spec fields read and written by kubejob.py. -/
structure FunctionSpec where
  image : String := ""
  build : ImageBuilder := {}
  workdir : Option String := none
  clone_target_dir : String := ""
  default_handler : Option String := none
  env : List String := []
  image_pull_secret : String := ""
deriving DecidableEq, Repr

/-- The runtime status fields read and written by kubejob.py. -/
structure FunctionStatus where
  state : String := ""
deriving DecidableEq, Repr

/-- The KubejobRuntime object: its mutable spec and status. -/
structure KubejobRuntime where
  spec : FunctionSpec := {}
  status : FunctionStatus := {}
deriving DecidableEq, Repr

/-- KubejobRuntime._resolve_workdir, translated line by line.  workdir is
Option String because Python distinguishes None from a set value; the
deferred-resolution branch and an unset workdir both surface as none. -/
def resolve_workdir (spec : FunctionSpec) : Option String :=
  let workdir := spec.workdir
  if spec.build.source ≠ "" ∧ spec.build.load_source_on_run = true then
    -- workdir will be set AFTER the clone (done in the pre-run), defer
    none
  else if (match workdir with
           | some w => w ≠ "" && isAbs w
           | none => false) = true then
    workdir
  else if spec.clone_target_dir ≠ "" then
    let w := workdir.getD ""
    let w := if strStarts w "./" then strDrop w 2 else w
    some (pathJoin spec.clone_target_dir w)
  else
    workdir

/-- KubejobRuntime.is_deployed, translated line by line.  The builder-status
probe is an external backend call that may raise; it is modelled as an
Except value: ok carries the enriched runtime written back by the call,
error models any raised exception.  The try/except in the source swallows
the exception and keeps the runtime unchanged.  The result carries the
returned boolean together with the runtime as left by the call. -/
def is_deployed (fn : KubejobRuntime) (probe : Except Unit KubejobRuntime) :
    Except Unit (Bool × KubejobRuntime) :=
  if fn.spec.image ≠ "" then Except.ok (true, fn)
  else
    let fn2 := match probe with
      | Except.ok enriched => enriched
      | Except.error _ => fn
    if fn2.spec.image ≠ "" then Except.ok (true, fn2)
    else if fn2.status.state ≠ "" ∧ fn2.status.state = "ready" then
      Except.ok (true, fn2)
    else Except.ok (false, fn2)

/-- KubejobRuntime.with_source_archive, translated line by line.  The zip
warning emits no state change and is omitted.  Python truthiness of the
optional workdir / handler / target_dir arguments is kept: an empty string
is falsy and leaves the field untouched. -/
def with_source_archive (fn : KubejobRuntime) (source : String)
    (workdir : Option String) (handler : Option String)
    (pull_at_runtime : Bool) (target_dir : String) : KubejobRuntime :=
  let fn := { fn with spec.build.source := source }
  let fn := match handler with
    | some h => if h = "" then fn else { fn with spec.default_handler := some h }
    | none => fn
  let fn := match workdir with
    | some w => if w = "" then fn else { fn with spec.workdir := some w }
    | none => fn
  let fn := if target_dir = "" then fn
    else { fn with spec.clone_target_dir := target_dir }
  let fn := { fn with spec.build.load_source_on_run := pull_at_runtime }
  if fn.spec.build.base_image ≠ "" ∧ fn.spec.build.commands = [] ∧
      pull_at_runtime = true ∧ fn.spec.image = "" then
    -- loading source from the repo with no full build: use base_image as image
    { fn with spec.image := fn.spec.build.base_image }
  else if pull_at_runtime = false then
    -- clear the image so build will not be skipped
    { fn with
        spec.build.base_image :=
          (if fn.spec.build.base_image ≠ "" then fn.spec.build.base_image
           else fn.spec.image),
        spec.image := "" }
  else fn

/-- One observation of the builder-status endpoint: the build state it
writes into status.state and the full accumulated log it serves. -/
structure Snapshot where
  state : String
  log : String
deriving DecidableEq, Repr

/-- One get_builder_status call made by the watch code: the character
offset requested, whether logs were requested, and the text returned. -/
structure Fetch where
  offset : Nat
  wantLogs : Bool
  text : String
deriving DecidableEq, Repr

/-- Result of _build_watch: final status.state, everything printed by
print_log, the final offset, and the trace of get_builder_status calls.
The bare print() issued on exit emits a single newline terminator and is
not part of the log text, so it is not modelled. -/
structure WatchOut where
  state : String
  printed : String
  offset : Nat
  fetches : List Fetch
deriving DecidableEq, Repr

/-- The nested print_log of _build_watch: prints text only when it is
nonempty and either show_on_failure is off or the current state is error.
Returns the text written to stdout. -/
def print_log (show_on_failure : Bool) (state text : String) : String :=
  if text ≠ "" ∧ (show_on_failure = false ∨ state = "error") then text else ""

/-- The while loop of _build_watch.  Each get_builder_status call consumes
the next snapshot, writes its state into status.state and returns the log
from the requested offset when logs are requested.  When the backend list
is exhausted a call returns no text and leaves the state unchanged (the
loop then stops producing observations).  Note the error branch under
show_on_failure re-reads at the CURRENT offset (the source passes offset,
not 0, to the re-read). -/
def watch_loop (show_on_failure logs : Bool) :
    List Snapshot → String → Nat → WatchOut
  | [], state, off => ⟨state, "", off, []⟩
  | s :: rest, state, off =>
    if state = "pending" ∨ state = "running" then
      if show_on_failure then
        -- text = ""; db.get_builder_status(self, 0, logs=False)
        let st1 := s.state
        if st1 = "error" then
          -- re-read the log on failure: get_builder_status(self, offset, logs)
          match rest with
          | [] =>
            ⟨st1, "", off, [⟨0, false, ""⟩, ⟨off, logs, ""⟩]⟩
          | s2 :: rest2 =>
            let text := if logs then strDrop s2.log off else ""
            let p := print_log show_on_failure s2.state text
            let r := watch_loop show_on_failure logs rest2 s2.state (off + strLen text)
            ⟨r.state, p ++ r.printed, r.offset,
              ⟨0, false, ""⟩ :: ⟨off, logs, text⟩ :: r.fetches⟩
        else
          -- state not error: text stays "", print_log prints nothing
          let r := watch_loop show_on_failure logs rest st1 off
          ⟨r.state, r.printed, r.offset, ⟨0, false, ""⟩ :: r.fetches⟩
      else
        let text := if logs then strDrop s.log off else ""
        let p := print_log show_on_failure s.state text
        let r := watch_loop show_on_failure logs rest s.state (off + strLen text)
        ⟨r.state, p ++ r.printed, r.offset, ⟨off, logs, text⟩ :: r.fetches⟩
    else ⟨state, "", off, []⟩

/-- KubejobRuntime._build_watch.  The seed fetch at offset 0 consumes the
first snapshot (an exhausted backend returns no text and leaves the state
unchanged; the not-found RunDBError path is not exercised by the claims and
is not modelled).  initState is status.state on entry. -/
def build_watch (watch logs show_on_failure : Bool) (initState : String)
    (snaps : List Snapshot) : WatchOut :=
  match snaps with
  | [] =>
    let p := print_log show_on_failure initState ""
    if watch then
      let r := watch_loop show_on_failure logs [] initState 0
      ⟨r.state, p ++ r.printed, r.offset, ⟨0, logs, ""⟩ :: r.fetches⟩
    else ⟨initState, p, 0, [⟨0, logs, ""⟩]⟩
  | s :: rest =>
    let text := if logs then strDrop s.log 0 else ""
    let p := print_log show_on_failure s.state text
    let off := strLen text
    if watch then
      let r := watch_loop show_on_failure logs rest s.state off
      ⟨r.state, p ++ r.printed, r.offset, ⟨0, logs, text⟩ :: r.fetches⟩
    else ⟨s.state, p, off, [⟨0, logs, text⟩]⟩

/-- The remote builder response consumed by deploy: the status object it
installs, the enrichment fields read with get_in (modelled as empty string
when absent), and the ready flag. -/
structure BuilderData where
  status_state : String := ""
  spec_image : String := ""
  spec_build_base_image : String := ""
  clone_target_dir : String := ""
  ready : Bool := false
deriving DecidableEq, Repr

deriving instance DecidableEq for Except

/-- Observable outcome of a deploy call.  result is ok of the returned
boolean, or error of the MLRunRuntimeError message raised at the end.
submitted records the with_mlrun value passed to db.remote_builder when
that call was made; loggedBuildIntent records whether the running-build-to-
add-mlrun-package message was logged; watchRan records whether _build_watch
was entered; printed and fetches are the watch trace. -/
structure DeployOutcome where
  result : Except String Bool
  fn : KubejobRuntime
  submitted : Option Bool
  loggedBuildIntent : Bool
  watchRan : Bool
  printed : String
  fetches : List Fetch
deriving DecidableEq, Repr

/-- KubejobRuntime.deploy, translated line by line.  _is_remote_api and the
backend are external: isRemote selects the remote branch, backend is the
remote_builder response and snaps feeds the subsequent _build_watch.
Python truthiness is kept: the inferred with_mlrun value
(build.base_image and not (...)) is falsy exactly when base_image is empty
or the base image matches the known mlrun namespace. -/
def deploy (fn0 : KubejobRuntime) (watch0 : Bool) (with_mlrun : Option Bool)
    (is_kfp : Bool) (show_on_failure : Bool) (isRemote : Bool)
    (backend : BuilderData) (snaps : List Snapshot) : DeployOutcome :=
  let build := fn0.spec.build
  let wm : Bool :=
    match with_mlrun with
    | some b => b
    | none =>
      match build.with_mlrun with
      | some b => b
      | none =>
        build.base_image ≠ "" &&
          !(strStarts build.base_image "mlrun/" ||
            strContainsSub build.base_image "/mlrun/")
  let logIntent : Bool :=
    build.source = "" && build.commands.isEmpty && build.requirements.isEmpty &&
      build.extra = "" && wm
  let fn1 := { fn0 with status.state := "" }
  let fn2 :=
    if build.base_image ≠ "" then
      -- clear the image so build will not be skipped
      { fn1 with spec.image := "" }
    else fn1
  -- in pipelines context we must watch, otherwise the pod exits early
  let watch := if is_kfp then true else watch0
  let remoteStep :
      Bool × KubejobRuntime × Bool × String × List Fetch :=
    if isRemote then
      let fn3 :=
        { fn2 with
            status := { state := backend.status_state },
            spec :=
              { fn2.spec with
                  image := backend.spec_image,
                  build :=
                    { fn2.spec.build with
                        base_image :=
                          (if fn2.spec.build.base_image ≠ "" then
                            fn2.spec.build.base_image
                           else backend.spec_build_base_image) },
                  clone_target_dir := backend.clone_target_dir } }
      if watch = true ∧ backend.ready = false then
        let w := build_watch true true show_on_failure fn3.status.state snaps
        ((w.state = "ready" : Bool),
          { fn3 with status.state := w.state }, true, w.printed, w.fetches)
      else (backend.ready, fn3, false, "", [])
    else (false, fn2, false, "", [])
  let ready := remoteStep.1
  let fnR := remoteStep.2.1
  let watchRan := remoteStep.2.2.1
  let printed := remoteStep.2.2.2.1
  let fetches := remoteStep.2.2.2.2
  let submitted := if isRemote then some wm else none
  if watch = true ∧ ready = false then
    ⟨Except.error "Deploy failed", fnR, submitted, logIntent, watchRan,
      printed, fetches⟩
  else
    ⟨Except.ok ready, fnR, submitted, logIntent, watchRan, printed, fetches⟩

/-- The backend-facing container descriptor built by func_to_pod,
restricted to the fields the embedding carries. -/
structure ContainerSpec where
  image : String
  env : List String
  command : List String
  args : List String
  working_dir : Option String
deriving DecidableEq, Repr

/-- The pod specification returned by func_to_pod. -/
structure PodSpec where
  container : ContainerSpec
  image_pull_secret_refs : List String
deriving DecidableEq, Repr

/-- func_to_pod, translated on the modelled fields: env is the
concatenation extra_env ++ runtime.spec.env, command is the single-element
list, and the image pull secret is attached only when configured. -/
def func_to_pod (image : String) (runtime : KubejobRuntime)
    (extra_env : List String) (command : String) (args : List String)
    (workdir : Option String) : PodSpec :=
  { container :=
      { image := image
        env := extra_env ++ runtime.spec.env
        command := [command]
        args := args
        working_dir := workdir }
    image_pull_secret_refs :=
      if runtime.spec.image_pull_secret ≠ "" then
        [runtime.spec.image_pull_secret]
      else [] }

/-- Errors that can surface from a run submission: the backend-layer
ApiException raised by create_pod, and the domain-level RunError that
_run raises after wrapping.  err_to_str is modelled as carrying the
backend message through unchanged. -/
inductive SubmitErr where
  | apiException (msg : String)
  | runError (msg : String)
deriving DecidableEq, Repr

/-- The run object fields touched by _run. -/
structure RunStatusRec where
  state : String := "created"
  status_text : String := ""
deriving DecidableEq, Repr

structure RunObj where
  status : RunStatusRec := {}
deriving DecidableEq, Repr

/-- KubejobRuntime._run, translated on its observable behaviour.  The
command/args/extra-env resolution, iteration store and metadata enrichment
are external inputs (command, args, extra_env, image); createPod is the
backend call get_k8s().create_pod, returning the (pod name, namespace)
pair or raising an ApiException carried as the error message.  The source
catches only ApiException and re-raises RunError(err_to_str(exc)); on
success it logs, writes status_text and returns None. -/
def run_job (fn : KubejobRuntime) (runobj : RunObj) (image : String)
    (command : String) (args : List String) (extra_env : List String)
    (createPod : PodSpec → Except String (String × String)) :
    Except SubmitErr (Option (String × String)) × RunObj :=
  let workdir := resolve_workdir fn.spec
  let pod := func_to_pod image fn extra_env command args workdir
  match createPod pod with
  | Except.error msg => (Except.error (SubmitErr.runError msg), runobj)
  | Except.ok (pod_name, _namespace) =>
    let txt := "Job is running in the background, pod: " ++ pod_name
    (Except.ok none, { runobj with status.status_text := txt })

/-- Modelled from the spec: the four-step workdir resolution policy as the
spec words it.  Step 1: a configured source archive with load_source_on_run
defers resolution (none).  Step 2: an absolute workdir is returned as-is.
Step 3: a configured clone-target directory yields
join(clone_target_dir, workdir with a leading ./ stripped).  Step 4:
workdir is returned unchanged. -/
def spec_workdir_policy (spec : FunctionSpec) : Option String :=
  if spec.build.source ≠ "" ∧ spec.build.load_source_on_run = true then none
  else if isAbs (spec.workdir.getD "") = true then spec.workdir
  else if spec.clone_target_dir ≠ "" then
    let w := spec.workdir.getD ""
    some (pathJoin spec.clone_target_dir (if strStarts w "./" then strDrop w 2 else w))
  else spec.workdir

/-- The truthiness test of the absolute-workdir branch agrees with plain
absoluteness of the defaulted workdir, since the empty string is never
absolute. -/
theorem truthy_abs_iff (workdir : Option String) :
    ((match workdir with
      | some w => w ≠ "" && isAbs w
      | none => false) = true) ↔ isAbs (workdir.getD "") = true := by
  cases workdir with
  | none => simp [isAbs, strStarts, List.isPrefixOf]
  | some w =>
    by_cases hw : w = ""
    · subst hw
      simp [isAbs, strStarts, List.isPrefixOf]
    · simp [hw]

/-- Claim C3: workdir resolution follows the four-step policy (defer when
the source loads at run time, keep absolute paths, join a configured clone
target with the workdir after stripping a leading dot-slash, else return
workdir unchanged), and in
particular workdir ./sub with clone_target_dir /repo and load-on-run false
resolves to /repo/sub, while a source archive with load_source_on_run true
resolves to none. -/
theorem claim_C3 :
    (∀ spec : FunctionSpec, resolve_workdir spec = spec_workdir_policy spec) ∧
    resolve_workdir
      { workdir := some "./sub", clone_target_dir := "/repo",
        build := { source := "git://repo", load_source_on_run := false } } =
      some "/repo/sub" ∧
    resolve_workdir
      { workdir := some "./sub",
        build := { source := "git://repo", load_source_on_run := true } } =
      none := by
  refine ⟨?_, by decide, by decide⟩
  intro spec
  unfold resolve_workdir spec_workdir_policy
  by_cases h1 : spec.build.source ≠ "" ∧ spec.build.load_source_on_run = true
  · rw [if_pos h1, if_pos h1]
  · rw [if_neg h1, if_neg h1]
    by_cases h2 : isAbs (spec.workdir.getD "") = true
    · rw [if_pos ((truthy_abs_iff spec.workdir).2 h2), if_pos h2]
    · rw [if_neg (fun h => h2 ((truthy_abs_iff spec.workdir).1 h)), if_neg h2]

/-- Claim C1 (code bug): in the show-on-failure watch loop, the error-time
re-read is issued at the current offset, not at offset 0, so with a
nonempty seed fetch the seed bytes are never printed.  With seed log A in
state pending and full log AB in state error, the loop prints only B (the
re-read is requested at offset 1), while the claim requires the complete
failure trace AB to be printed once. -/
theorem claim_C1 :
    (build_watch true true true "pending"
        [⟨"pending", "A"⟩, ⟨"error", "AB"⟩, ⟨"error", "AB"⟩]).printed = "B" ∧
    (build_watch true true true "pending"
        [⟨"pending", "A"⟩, ⟨"error", "AB"⟩, ⟨"error", "AB"⟩]).printed ≠ "AB" ∧
    (build_watch true true true "pending"
        [⟨"pending", "A"⟩, ⟨"error", "AB"⟩, ⟨"error", "AB"⟩]).fetches =
      [⟨0, true, "A"⟩, ⟨0, false, ""⟩, ⟨1, true, "B"⟩] ∧
    (build_watch true true true "pending"
        [⟨"pending", "A"⟩, ⟨"error", "AB"⟩, ⟨"error", "AB"⟩]).state = "error" := by
  refine ⟨rfl, by decide, by decide, rfl⟩

/-- Claim C7: is_deployed never propagates an exception from the
builder-status probe: for every runtime state and every probe behaviour
(including a raised exception) the call returns ok with a boolean, and when
the probe raises, the boolean is computed from the unchanged local state
(image set, or status state ready). -/
theorem claim_C7 :
    ∀ (fn : KubejobRuntime) (probe : Except Unit KubejobRuntime),
      (∃ b fn2, is_deployed fn probe = Except.ok (b, fn2)) ∧
      is_deployed fn (Except.error ()) =
        Except.ok
          (decide (fn.spec.image ≠ "" ∨
            (fn.status.state ≠ "" ∧ fn.status.state = "ready")), fn) := by
  intro fn probe
  constructor
  · unfold is_deployed
    by_cases h1 : fn.spec.image ≠ ""
    · exact ⟨true, fn, by rw [if_pos h1]⟩
    · cases probe with
      | error e =>
        by_cases h3 : fn.status.state ≠ "" ∧ fn.status.state = "ready"
        · exact ⟨true, fn, by rw [if_neg h1]; dsimp only; rw [if_neg h1, if_pos h3]⟩
        · exact ⟨false, fn, by rw [if_neg h1]; dsimp only; rw [if_neg h1, if_neg h3]⟩
      | ok enr =>
        by_cases h2 : enr.spec.image ≠ ""
        · exact ⟨true, enr, by rw [if_neg h1]; dsimp only; rw [if_pos h2]⟩
        · by_cases h3 : enr.status.state ≠ "" ∧ enr.status.state = "ready"
          · exact ⟨true, enr, by rw [if_neg h1]; dsimp only; rw [if_neg h2, if_pos h3]⟩
          · exact ⟨false, enr, by rw [if_neg h1]; dsimp only; rw [if_neg h2, if_neg h3]⟩
  · unfold is_deployed
    by_cases h1 : fn.spec.image ≠ ""
    · rw [if_pos h1]
      have : decide (fn.spec.image ≠ "" ∨
          (fn.status.state ≠ "" ∧ fn.status.state = "ready")) = true := by
        simp [h1]
      rw [this]
    · rw [if_neg h1]
      dsimp only
      rw [if_neg h1]
      by_cases h3 : fn.status.state ≠ "" ∧ fn.status.state = "ready"
      · rw [if_pos h3]
        have : decide (fn.spec.image ≠ "" ∨
            (fn.status.state ≠ "" ∧ fn.status.state = "ready")) = true := by
          simp [h3]
        rw [this]
      · rw [if_neg h3]
        have : decide (fn.spec.image ≠ "" ∨
            (fn.status.state ≠ "" ∧ fn.status.state = "ready")) = false := by
          simp [h1, h3]
        rw [this]

/-- Claim C9 counterexample: a successful submission returns None rather
than the backend-assigned pod identity, and leaves the run state unchanged
(only status_text is written), so the success half of the claim fails at
this concrete input. -/
theorem claim_C9_cex :
    (run_job {} { status := { state := "created", status_text := "" } } "img"
        "cmd" [] [] (fun _ => Except.ok ("mypod", "ns"))).1 = Except.ok none ∧
    (run_job {} { status := { state := "created", status_text := "" } } "img"
        "cmd" [] [] (fun _ => Except.ok ("mypod", "ns"))).1 ≠
      Except.ok (some ("mypod", "ns")) ∧
    (run_job {} { status := { state := "created", status_text := "" } } "img"
        "cmd" [] [] (fun _ => Except.ok ("mypod", "ns"))).2.status.state =
      "created" ∧
    (run_job {} { status := { state := "created", status_text := "" } } "img"
        "cmd" [] [] (fun _ => Except.ok ("mypod", "ns"))).2.status.status_text =
      "Job is running in the background, pod: mypod" := by
  refine ⟨rfl, by decide, rfl, rfl⟩

/-- Claim C9 as amended: a backend rejection of pod creation is wrapped
into the domain-level RunError carrying the backend message (never the raw
backend exception); a successful submission returns None, writes the
human-readable status line naming the backend-assigned pod into
status_text, and leaves the run state untouched. -/
theorem claim_C9 :
    ∀ (fn : KubejobRuntime) (ro : RunObj) (image command : String)
      (args extra_env : List String) (msg name ns : String),
      run_job fn ro image command args extra_env (fun _ => Except.error msg) =
        (Except.error (SubmitErr.runError msg), ro) ∧
      run_job fn ro image command args extra_env (fun _ => Except.ok (name, ns)) =
        (Except.ok none,
          { ro with
              status.status_text := "Job is running in the background, pod: " ++ name }) := by
  intro fn ro image command args extra_env msg name ns
  exact ⟨rfl, rfl⟩

/-- The straight-line prefix of with_source_archive (everything before the
image/base-image branch), spelled out separately so its field preservation
can be reasoned about. -/
def wsa_pre (fn : KubejobRuntime) (source : String) (workdir : Option String)
    (handler : Option String) (pull_at_runtime : Bool) (target_dir : String) :
    KubejobRuntime :=
  let fn := { fn with spec.build.source := source }
  let fn := match handler with
    | some h => if h = "" then fn else { fn with spec.default_handler := some h }
    | none => fn
  let fn := match workdir with
    | some w => if w = "" then fn else { fn with spec.workdir := some w }
    | none => fn
  let fn := if target_dir = "" then fn
    else { fn with spec.clone_target_dir := target_dir }
  { fn with spec.build.load_source_on_run := pull_at_runtime }

/-- with_source_archive is the branch step applied to its straight-line
prefix. -/
theorem wsa_eq_branch (fn : KubejobRuntime) (source : String)
    (workdir handler : Option String) (pull : Bool) (target_dir : String) :
    with_source_archive fn source workdir handler pull target_dir =
      (let fnP := wsa_pre fn source workdir handler pull target_dir
       if fnP.spec.build.base_image ≠ "" ∧ fnP.spec.build.commands = [] ∧
           pull = true ∧ fnP.spec.image = "" then
         { fnP with spec.image := fnP.spec.build.base_image }
       else if pull = false then
         { fnP with
             spec.build.base_image :=
               (if fnP.spec.build.base_image ≠ "" then fnP.spec.build.base_image
                else fnP.spec.image),
             spec.image := "" }
       else fnP) := by
  unfold with_source_archive wsa_pre
  rfl

/-- The straight-line prefix leaves image, base_image and the build
commands untouched. -/
theorem wsa_pre_fields (fn : KubejobRuntime) (source : String)
    (workdir handler : Option String) (pull : Bool) (target_dir : String) :
    (wsa_pre fn source workdir handler pull target_dir).spec.image =
        fn.spec.image ∧
      (wsa_pre fn source workdir handler pull target_dir).spec.build.base_image =
        fn.spec.build.base_image ∧
      (wsa_pre fn source workdir handler pull target_dir).spec.build.commands =
        fn.spec.build.commands := by
  unfold wsa_pre
  cases handler <;> cases workdir <;> dsimp only <;> split_ifs <;>
    exact ⟨rfl, rfl, rfl⟩

/-- Claim C10: with pull_at_runtime true, a configured base image, no build
commands and no final image, with_source_archive publishes the base image
as the function image (so is_deployed answers true without any probe); with
pull_at_runtime false it writes the existing base image or image into
base_image and clears the image so the build is not skipped. -/
theorem claim_C10 :
    ∀ (fn : KubejobRuntime) (source : String) (workdir handler : Option String)
      (target_dir : String),
      (fn.spec.build.base_image ≠ "" → fn.spec.build.commands = [] →
        fn.spec.image = "" →
          (with_source_archive fn source workdir handler true target_dir).spec.image =
            fn.spec.build.base_image ∧
          ∀ probe,
            is_deployed (with_source_archive fn source workdir handler true target_dir)
                probe =
              Except.ok (true, with_source_archive fn source workdir handler true target_dir)) ∧
      (with_source_archive fn source workdir handler false target_dir).spec.build.base_image =
        (if fn.spec.build.base_image = "" then fn.spec.image
         else fn.spec.build.base_image) ∧
      (with_source_archive fn source workdir handler false target_dir).spec.image = "" := by
  intro fn source workdir handler target_dir
  obtain ⟨hpreT1, hpreT2, hpreT3⟩ :=
    wsa_pre_fields fn source workdir handler true target_dir
  obtain ⟨hpreF1, hpreF2, hpreF3⟩ :=
    wsa_pre_fields fn source workdir handler false target_dir
  refine ⟨?_, ?_, ?_⟩
  · intro hb hc hi
    have himage :
        (with_source_archive fn source workdir handler true target_dir).spec.image =
          fn.spec.build.base_image := by
      rw [wsa_eq_branch]
      dsimp only
      rw [if_pos ⟨by rw [hpreT2]; exact hb, by rw [hpreT3]; exact hc, rfl,
        by rw [hpreT1]; exact hi⟩]
      exact hpreT2
    refine ⟨himage, ?_⟩
    intro probe
    have himg2 :
        (with_source_archive fn source workdir handler true target_dir).spec.image ≠
          "" := by
      rw [himage]; exact hb
    unfold is_deployed
    rw [if_pos himg2]
  · rw [wsa_eq_branch]
    dsimp only
    rw [if_neg (fun h => by simp at h), if_pos rfl]
    show (if (wsa_pre fn source workdir handler false target_dir).spec.build.base_image ≠ ""
        then (wsa_pre fn source workdir handler false target_dir).spec.build.base_image
        else (wsa_pre fn source workdir handler false target_dir).spec.image) =
      (if fn.spec.build.base_image = "" then fn.spec.image
       else fn.spec.build.base_image)
    rw [hpreF1, hpreF2]
    by_cases hbe : fn.spec.build.base_image = ""
    · rw [if_neg (fun h => h hbe), if_pos hbe]
    · rw [if_pos hbe, if_neg hbe]
  · rw [wsa_eq_branch]
    dsimp only
    rw [if_neg (fun h => by simp at h), if_pos rfl]

/-- Concrete instance of claim C10 at a runtime with base image base and no
image, and at a runtime with image img and no base image. -/
theorem claim_C10_witness :
    (with_source_archive { spec := { build := { base_image := "base" } } }
        "git://s" none none true "").spec.image = "base" ∧
    is_deployed
        (with_source_archive { spec := { build := { base_image := "base" } } }
          "git://s" none none true "") (Except.error ()) =
      Except.ok (true,
        with_source_archive { spec := { build := { base_image := "base" } } }
          "git://s" none none true "") ∧
    (with_source_archive { spec := { image := "img" } }
        "git://s" none none false "").spec.build.base_image = "img" ∧
    (with_source_archive { spec := { image := "img" } }
        "git://s" none none false "").spec.image = "" := by
  refine ⟨?_, ?_, ?_, ?_⟩
  · exact ((claim_C10 { spec := { build := { base_image := "base" } } }
      "git://s" none none "").1 (by decide) rfl rfl).1
  · exact ((claim_C10 { spec := { build := { base_image := "base" } } }
      "git://s" none none "").1 (by decide) rfl rfl).2 (Except.error ())
  · exact (claim_C10 { spec := { image := "img" } } "git://s" none none "").2.1
  · exact (claim_C10 { spec := { image := "img" } } "git://s" none none "").2.2

/-- Offset consistency of a fetch trace: each fetch is issued at the
running total of the lengths of the texts returned by the fetches before
it. -/
def fetchChain : Nat → List Fetch → Prop
  | _, [] => True
  | acc, f :: rest => f.offset = acc ∧ fetchChain (acc + strLen f.text) rest

/-- In plain (non show-on-failure) mode, the watch loop issues every fetch
at the running total of previously returned text lengths. -/
theorem watch_loop_chain (logs : Bool) :
    ∀ (snaps : List Snapshot) (state : String) (off : Nat),
      fetchChain off (watch_loop false logs snaps state off).fetches := by
  intro snaps
  induction snaps with
  | nil => intro state off; exact trivial
  | cons s rest ih =>
    intro state off
    unfold watch_loop
    by_cases hg : state = "pending" ∨ state = "running"
    · rw [if_pos hg]
      simp only [Bool.false_eq_true, if_false]
      exact ⟨rfl, ih s.state (off + strLen (if logs then strDrop s.log off else ""))⟩
    · rw [if_neg hg]
      exact trivial

/-- In plain mode, _build_watch issues its seed fetch at offset 0 and every
later fetch at the running total of previously returned text lengths. -/
theorem build_watch_chain (logs : Bool) (initState : String)
    (snaps : List Snapshot) :
    fetchChain 0 (build_watch true logs false initState snaps).fetches := by
  cases snaps with
  | nil => exact ⟨rfl, trivial⟩
  | cons s rest =>
    refine ⟨rfl, ?_⟩
    have := watch_loop_chain logs rest s.state
      (strLen (if logs then strDrop s.log 0 else ""))
    simpa [Nat.zero_add] using this

/-- A chained fetch trace requests, at position i, exactly acc plus the sum
of the lengths of the first i returned texts. -/
theorem fetchChain_get (l : List Fetch) :
    ∀ (acc : Nat), fetchChain acc l →
      ∀ (i : Nat) (h : i < l.length),
        (l.get ⟨i, h⟩).offset =
          acc + ((l.take i).map fun f => strLen f.text).sum := by
  induction l with
  | nil => intro acc _ i h; exact absurd h (by simp)
  | cons f rest ih =>
    intro acc hch i h
    cases i with
    | zero => simpa using hch.1
    | succ j =>
      have hj : j < rest.length := by simpa using h
      have hrec := ih (acc + strLen f.text) hch.2 j hj
      simp only [List.get_cons_succ, List.take_succ_cons, List.map_cons,
        List.sum_cons] at hrec ⊢
      omega

/-- A chained fetch trace has adjacently non-decreasing offsets. -/
theorem fetchChain_mono (l : List Fetch) :
    ∀ (acc : Nat), fetchChain acc l →
      l.Chain' (fun a b => a.offset ≤ b.offset) := by
  induction l with
  | nil => intro acc _; exact List.chain'_nil
  | cons f rest ih =>
    intro acc hch
    rw [List.chain'_cons']
    refine ⟨?_, ih _ hch.2⟩
    intro b hb
    cases rest with
    | nil => simp at hb
    | cons g rest2 =>
      simp only [List.head?_cons, Option.mem_def, Option.some.injEq] at hb
      subst hb
      rw [hch.1, hch.2.1]
      omega

/-- The C8 end-to-end scenario: states pending, running, running, ready
with accumulated logs A, AB, AB, ABC, so the successive chunks are A, B,
empty, C. -/
def snapsC8 : List Snapshot :=
  [⟨"pending", "A"⟩, ⟨"running", "AB"⟩, ⟨"running", "AB"⟩, ⟨"ready", "ABC"⟩]

/-- Claim C8: in the plain watch loop every fetch offset equals the sum of
the lengths of all previously fetched chunks (hence offsets never
decrease), and on the pending, running, running, ready scenario with
chunks A, B, empty, C the printed output is ABC and deploy returns ready
true with final state ready. -/
theorem claim_C8 :
    (∀ (initState : String) (snaps : List Snapshot) (i : Nat)
        (h : i < (build_watch true true false initState snaps).fetches.length),
        ((build_watch true true false initState snaps).fetches.get ⟨i, h⟩).offset =
          (((build_watch true true false initState snaps).fetches.take i).map
            fun f => strLen f.text).sum ∧
        ((build_watch true true false initState snaps).fetches).Chain'
          (fun a b => a.offset ≤ b.offset)) ∧
    (deploy {} true none false false true { status_state := "pending" }
        snapsC8).printed = "ABC" ∧
    (deploy {} true none false false true { status_state := "pending" }
        snapsC8).result = Except.ok true ∧
    (deploy {} true none false false true { status_state := "pending" }
        snapsC8).fn.status.state = "ready" := by
  refine ⟨?_, rfl, rfl, rfl⟩
  intro initState snaps i h
  have hch := build_watch_chain true initState snaps
  constructor
  · simpa using fetchChain_get _ 0 hch i h
  · exact fetchChain_mono _ 0 hch

/-- Concrete instance of the general part of claim C8 on the scenario
trace, fetch index 1. -/
theorem claim_C8_witness :
    ((build_watch true true false "pending" snapsC8).fetches.get
        ⟨1, by decide⟩).offset =
      (((build_watch true true false "pending" snapsC8).fetches.take 1).map
        fun f => strLen f.text).sum ∧
    ((build_watch true true false "pending" snapsC8).fetches).Chain'
      (fun a b => a.offset ≤ b.offset) :=
  claim_C8.1 "pending" snapsC8 1 (by decide)

/-- The backend observation list eventually reports a terminal state: its
last snapshot is outside pending/running, or it is empty and the entry
state is already outside pending/running. -/
def terminalReach (init : String) (snaps : List Snapshot) : Prop :=
  match snaps.getLast? with
  | none => ¬(init = "pending" ∨ init = "running")
  | some s => ¬(s.state = "pending" ∨ s.state = "running")

/-- When the observation list reaches a terminal state, the watch loop
stops in a state outside pending/running (in either display mode). -/
theorem watch_loop_terminal (show_on_failure logs : Bool) :
    ∀ (n : Nat) (snaps : List Snapshot) (state : String) (off : Nat),
      snaps.length ≤ n → terminalReach state snaps →
      ¬((watch_loop show_on_failure logs snaps state off).state = "pending" ∨
        (watch_loop show_on_failure logs snaps state off).state = "running") := by
  intro n
  induction n with
  | zero =>
    intro snaps state off hlen hterm
    have hnil : snaps = [] := List.length_eq_zero.1 (Nat.le_zero.1 hlen)
    subst hnil
    simpa [watch_loop, terminalReach] using hterm
  | succ n ih =>
    intro snaps state off hlen hterm
    cases snaps with
    | nil => simpa [watch_loop, terminalReach] using hterm
    | cons s rest =>
      unfold watch_loop
      by_cases hg : state = "pending" ∨ state = "running"
      · rw [if_pos hg]
        cases hshow : show_on_failure with
        | false =>
          rw [hshow] at ih
          simp only [Bool.false_eq_true, if_false]
          apply ih rest s.state
          · simpa using Nat.le_of_succ_le_succ hlen
          · cases rest with
            | nil => simpa [terminalReach] using hterm
            | cons s2 rest2 =>
              simpa [terminalReach, List.getLast?_cons_cons] using hterm
        | true =>
          rw [hshow] at ih
          simp only [if_true]
          by_cases herr : s.state = "error"
          · rw [if_pos herr]
            cases rest with
            | nil =>
              dsimp only
              simp [herr]
            | cons s2 rest2 =>
              dsimp only
              apply ih rest2 s2.state
              · simp only [List.length_cons] at hlen
                omega
              · cases rest2 with
                | nil => simpa [terminalReach, List.getLast?_cons_cons] using hterm
                | cons s3 rest3 =>
                  simpa [terminalReach, List.getLast?_cons_cons] using hterm
          · rw [if_neg herr]
            dsimp only
            apply ih rest s.state
            · simpa using Nat.le_of_succ_le_succ hlen
            · cases rest with
              | nil => simpa [terminalReach] using hterm
              | cons s2 rest2 =>
                simpa [terminalReach, List.getLast?_cons_cons] using hterm
      · rw [if_neg hg]
        exact hg

/-- When the observation list reaches a terminal state, _build_watch with
watching on returns a state outside pending/running. -/
theorem build_watch_terminal (show_on_failure logs : Bool) (initState : String)
    (snaps : List Snapshot) (h : terminalReach initState snaps) :
    ¬((build_watch true logs show_on_failure initState snaps).state = "pending" ∨
      (build_watch true logs show_on_failure initState snaps).state = "running") := by
  cases snaps with
  | nil =>
    simpa [build_watch, watch_loop, terminalReach] using h
  | cons s rest =>
    have hterm : terminalReach s.state rest := by
      cases rest with
      | nil => simpa [terminalReach] using h
      | cons s2 rest2 => simpa [terminalReach, List.getLast?_cons_cons] using h
    have := watch_loop_terminal show_on_failure logs rest.length rest s.state
      (strLen (if logs then strDrop s.log 0 else "")) le_rfl hterm
    simpa [build_watch] using this

/-- Claim C4: with is_kfp true the caller-supplied watch flag is
irrelevant (deploy behaves exactly as with watch true), and when the
remote build is not immediately ready and the backend observations reach a
terminal state, the watch loop runs and deploy ends in a state outside
pending/running. -/
theorem claim_C4 :
    ∀ (fn : KubejobRuntime) (watch0 : Bool) (wm : Option Bool)
      (show_on_failure : Bool) (isRemote : Bool) (backend : BuilderData)
      (snaps : List Snapshot),
      deploy fn watch0 wm true show_on_failure isRemote backend snaps =
        deploy fn true wm true show_on_failure isRemote backend snaps ∧
      (isRemote = true → backend.ready = false →
        terminalReach backend.status_state snaps →
        (deploy fn watch0 wm true show_on_failure isRemote backend
            snaps).watchRan = true ∧
        ¬((deploy fn watch0 wm true show_on_failure isRemote backend
              snaps).fn.status.state = "pending" ∨
          (deploy fn watch0 wm true show_on_failure isRemote backend
              snaps).fn.status.state = "running")) := by
  intro fn watch0 wm sh isRemote backend snaps
  refine ⟨rfl, ?_⟩
  intro hr hready hterm
  subst hr
  obtain ⟨bs, bi, bb, bc, br⟩ := backend
  dsimp only at hready hterm
  subst hready
  have hbw := build_watch_terminal sh true bs snaps hterm
  constructor
  · simp only [deploy, apply_ite DeployOutcome.watchRan, ite_self]
    rfl
  · simp only [deploy, apply_ite DeployOutcome.fn, ite_self]
    exact hbw

/-- Concrete instance of claim C4: watch false with is_kfp true equals
watch true, the loop runs and ends terminal. -/
theorem claim_C4_witness :
    deploy {} false none true false true { status_state := "pending" }
        [⟨"ready", "done"⟩] =
      deploy {} true none true false true { status_state := "pending" }
        [⟨"ready", "done"⟩] ∧
    (deploy {} false none true false true { status_state := "pending" }
        [⟨"ready", "done"⟩]).watchRan = true ∧
    ¬((deploy {} false none true false true { status_state := "pending" }
          [⟨"ready", "done"⟩]).fn.status.state = "pending" ∨
      (deploy {} false none true false true { status_state := "pending" }
          [⟨"ready", "done"⟩]).fn.status.state = "running") :=
  ⟨(claim_C4 {} false none false true { status_state := "pending" }
      [⟨"ready", "done"⟩]).1,
   ((claim_C4 {} false none false true { status_state := "pending" }
      [⟨"ready", "done"⟩]).2 rfl rfl
      (by unfold terminalReach; simp)).1,
   ((claim_C4 {} false none false true { status_state := "pending" }
      [⟨"ready", "done"⟩]).2 rfl rfl
      (by unfold terminalReach; simp)).2⟩

/-- The concrete runtime used for the claim C2 counterexample: a configured
base image and a stale final image. -/
def fnC2 : KubejobRuntime :=
  { spec := { image := "old", build := { base_image := "custom/base" } },
    status := { state := "x" } }

/-- Claim C2 counterexample: the remote builder response is written back
into spec.image even when the build is not ready, so a backend that
returns a non-empty image field on an unresolved build leaves spec.image
non-empty although no ready status was observed. -/
theorem claim_C2_cex :
    (deploy fnC2 false none false false true
        { status_state := "running", spec_image := "img", ready := false }
        []).fn.spec.image = "img" ∧
    (deploy fnC2 false none false false true
        { status_state := "running", spec_image := "img", ready := false }
        []).fn.spec.image ≠ "" ∧
    (deploy fnC2 false none false false true
        { status_state := "running", spec_image := "img", ready := false }
        []).result = Except.ok false ∧
    (deploy fnC2 false none false false true
        { status_state := "running", spec_image := "img", ready := false }
        []).fn.status.state = "running" := by
  refine ⟨rfl, by decide, rfl, rfl⟩

/-- Claim C2 as amended: deploy clears spec.image whenever a base image is
configured; afterwards, in non-remote mode spec.image stays empty, and in
remote mode spec.image is exactly the image field of the backend response
(mid-build enrichment), so it stays empty on an unresolved or failed build
whenever the backend returns an empty image for such builds. -/
theorem claim_C2 :
    ∀ (fn : KubejobRuntime) (watch0 : Bool) (wm : Option Bool) (is_kfp : Bool)
      (show_on_failure : Bool) (isRemote : Bool) (backend : BuilderData)
      (snaps : List Snapshot),
      fn.spec.build.base_image ≠ "" →
      (isRemote = false →
        (deploy fn watch0 wm is_kfp show_on_failure isRemote backend
            snaps).fn.spec.image = "") ∧
      (isRemote = true →
        (deploy fn watch0 wm is_kfp show_on_failure isRemote backend
            snaps).fn.spec.image = backend.spec_image) := by
  intro fn watch0 wm is_kfp sh isRemote backend snaps hb
  obtain ⟨bs, bi, bb, bc, br⟩ := backend
  constructor
  · intro h; subst h
    cases watch0 <;> cases is_kfp <;>
      (simp only [deploy]; rw [if_pos hb]; rfl)
  · intro h; subst h
    cases watch0 <;> cases is_kfp <;> cases br <;>
      (simp only [deploy, apply_ite DeployOutcome.fn, ite_self]; rfl)

/-- Concrete instance of claim C2: with a base image configured, the image
is cleared locally, and in remote mode it equals the (empty) image field
of the backend response on a not-ready build. -/
theorem claim_C2_witness :
    (deploy fnC2 false none false false false
        { status_state := "running", ready := false } []).fn.spec.image = "" ∧
    (deploy fnC2 false none false false true
        { status_state := "running", spec_image := "", ready := false }
        []).fn.spec.image = "" :=
  ⟨(claim_C2 fnC2 false none false false false
      { status_state := "running", ready := false } [] (by decide)).1 rfl,
   (claim_C2 fnC2 false none false false true
      { status_state := "running", spec_image := "", ready := false } []
      (by decide)).2 rfl⟩

/-- The concrete runtime of the C5 scenario: a custom base image outside
the known mlrun namespace, with no source, commands, requirements or extra
lines. -/
def fnC5 : KubejobRuntime :=
  { spec := { build := { base_image := "custom/base" } } }

/-- A runtime whose build config pins with_mlrun explicitly to false. -/
def fnC5b : KubejobRuntime :=
  { spec := { build := { base_image := "custom/base", with_mlrun := some false } } }

/-- Claim C5: when both the caller argument and the build config leave
with_mlrun unset, deploy submits the build with with_mlrun inferred as
true exactly when a base image is configured that neither starts with
mlrun/ nor contains /mlrun/; an explicit caller or build-config value is
passed through unchanged; and on the custom/base scenario with nothing to
build, deploy still submits (with the build-intent message logged). -/
theorem claim_C5 :
    (∀ (fn : KubejobRuntime) (watch0 is_kfp show_on_failure : Bool)
        (backend : BuilderData) (snaps : List Snapshot),
        (fn.spec.build.with_mlrun = none →
          (deploy fn watch0 none is_kfp show_on_failure true backend
              snaps).submitted =
            some (fn.spec.build.base_image ≠ "" &&
              !(strStarts fn.spec.build.base_image "mlrun/" ||
                strContainsSub fn.spec.build.base_image "/mlrun/"))) ∧
        (∀ b, (deploy fn watch0 (some b) is_kfp show_on_failure true backend
              snaps).submitted = some b) ∧
        (∀ b, fn.spec.build.with_mlrun = some b →
          (deploy fn watch0 none is_kfp show_on_failure true backend
              snaps).submitted = some b)) ∧
    (deploy fnC5 true none false false true {} []).submitted = some true ∧
    (deploy fnC5 true none false false true {} []).loggedBuildIntent = true := by
  refine ⟨?_, rfl, rfl⟩
  intro fn watch0 is_kfp sh backend snaps
  refine ⟨?_, ?_, ?_⟩
  · intro hwm
    simp only [deploy, hwm, apply_ite DeployOutcome.submitted, ite_self]
    rfl
  · intro b
    simp only [deploy, apply_ite DeployOutcome.submitted, ite_self]
    rfl
  · intro b hwm
    simp only [deploy, hwm, apply_ite DeployOutcome.submitted, ite_self]
    rfl

/-- Concrete instance of claim C5: the inferred with_mlrun on the scenario
runtime is true, and the pinned build-config value false wins. -/
theorem claim_C5_witness :
    (deploy fnC5 true none false false true {} []).submitted = some true ∧
    (deploy fnC5b true none false false true {} []).submitted = some false :=
  ⟨(claim_C5.1 fnC5 true false false {} []).1 rfl,
   (claim_C5.1 fnC5b true false false {} []).2.2 false rfl⟩

/-- Claim C6 counterexample: a backend response can carry ready true
together with a status whose state is not ready; deploy then returns true
although the final observed status state is running, so the claimed
equivalence with the final state fails at this input. -/
theorem claim_C6_cex :
    (deploy {} true none false false true
        { status_state := "running", ready := true } []).result =
      Except.ok true ∧
    (deploy {} true none false false true
        { status_state := "running", ready := true } []).fn.status.state =
      "running" ∧
    (deploy {} true none false false true
        { status_state := "running", ready := true } []).fn.status.state ≠
      "ready" := by
  refine ⟨rfl, rfl, by decide⟩

/-- Claim C6 as amended: deploy returns true exactly when the build was
submitted remotely and either the backend response carried the ready flag,
or the effective wait flag was on and the watch loop ended in state ready;
and under the effective wait flag deploy either returns true or raises
Deploy failed (never returns false). -/
theorem claim_C6 :
    ∀ (fn : KubejobRuntime) (watch0 : Bool) (wm : Option Bool) (is_kfp : Bool)
      (show_on_failure : Bool) (isRemote : Bool) (backend : BuilderData)
      (snaps : List Snapshot),
      ((if is_kfp then true else watch0) = true →
        (deploy fn watch0 wm is_kfp show_on_failure isRemote backend
            snaps).result = Except.ok true ∨
        (deploy fn watch0 wm is_kfp show_on_failure isRemote backend
            snaps).result = Except.error "Deploy failed") ∧
      ((deploy fn watch0 wm is_kfp show_on_failure isRemote backend
            snaps).result = Except.ok true ↔
        isRemote = true ∧
          (backend.ready = true ∨
            ((if is_kfp then true else watch0) = true ∧
              (build_watch true true show_on_failure backend.status_state
                  snaps).state = "ready"))) := by
  intro fn watch0 wm is_kfp sh isRemote backend snaps
  obtain ⟨bs, bi, bb, bc, br⟩ := backend
  cases is_kfp <;> cases watch0 <;> cases isRemote <;> cases br <;>
    (by_cases hws : (build_watch true true sh bs snaps).state = "ready" <;>
      constructor <;>
      simp [deploy, hws])

/-- Concrete instance of claim C6: under the effective wait flag deploy
returns true or raises Deploy failed. -/
theorem claim_C6_witness :
    (deploy {} true none false false true { ready := true } []).result =
        Except.ok true ∨
    (deploy {} true none false false true { ready := true } []).result =
        Except.error "Deploy failed" :=
  (claim_C6 {} true none false false true { ready := true } []).1 rfl
